import Mathlib

/-!
Verification of the blender excerpt: the immediate-mode pixel drawing layer
in source/blender/editors/screen/glutil.c and the asset system layer in
source/blender/asset_system.  Each definition is a shallow embedding of the
corresponding C or C++ routine; machine ints are modelled as Nat (all the
values involved are non-negative in every reachable state of the embedded
code paths) and C float parameters are modelled as rationals, which only
serve as opaque pass-through data in the claims proved about them.
-/

namespace Glutil

/-- Size constants of the cached work texture, from get_cached_work_texture:
tex_w and tex_h are both the static value 256. -/
def tex_w : Nat := 256

/-- Height of the cached work texture, see tex_w. -/
def tex_h : Nat := 256

/-- Embedding of the seamless computation in immDrawPixelsTexScaled_clipping:
seamless = ((tex_w < img_w or tex_h < img_h) and tex_w > 2 and tex_h > 2) ? 2 : 0. -/
def seamless (img_w img_h : Nat) : Nat :=
  if (tex_w < img_w ∨ tex_h < img_h) ∧ 2 < tex_w ∧ 2 < tex_h then 2 else 0

/-- offset_x = tex_w - seamless. -/
def offset_x (img_w img_h : Nat) : Nat := tex_w - seamless img_w img_h

/-- offset_y = tex_h - seamless. -/
def offset_y (img_w img_h : Nat) : Nat := tex_h - seamless img_w img_h

/-- nsubparts_x = (img_w + (offset_x - 1)) / offset_x, C integer division on
non-negative operands agrees with Nat division. -/
def nsubparts_x (img_w img_h : Nat) : Nat :=
  (img_w + (offset_x img_w img_h - 1)) / offset_x img_w img_h

/-- nsubparts_y = (img_h + (offset_y - 1)) / offset_y. -/
def nsubparts_y (img_w img_h : Nat) : Nat :=
  (img_h + (offset_y img_w img_h - 1)) / offset_y img_w img_h

/-- One tile of the subpart loop: loop indices and the computed subpart
dimensions subpart_w = min(remainder_x, tex_w), subpart_h likewise. -/
structure Tile where
  subpart_x : Nat
  subpart_y : Nat
  subpart_w : Nat
  subpart_h : Nat
deriving DecidableEq, Repr

/-- All tiles visited by the double subpart loop of
immDrawPixelsTexScaled_clipping, with the dimensions the loop body computes.
Inside the loop remainder_x = img_w - subpart_x * offset_x is at least 1, so
Nat subtraction agrees with the C int computation. -/
def tiles (img_w img_h : Nat) : List Tile :=
  (List.range (nsubparts_y img_w img_h)).flatMap fun sy =>
    (List.range (nsubparts_x img_w img_h)).map fun sx =>
      { subpart_x := sx
        subpart_y := sy
        subpart_w := min (img_w - sx * offset_x img_w img_h) tex_w
        subpart_h := min (img_h - sy * offset_y img_w img_h) tex_h }

/-- The tiles actually uploaded by the loop: those not skipped by the check
if (subpart_w <= seamless or subpart_h <= seamless) continue, and not skipped
by the clipping test.  The clipping test compares C floats; it is abstracted
here as an arbitrary boolean function keep of the loop indices, so facts
proved for every keep hold for the real float test as well.  Clipping
disabled corresponds to keep constantly true. -/
def uploads (img_w img_h : Nat) (keep : Nat → Nat → Bool) : List Tile :=
  (tiles img_w img_h).filter fun t =>
    decide (seamless img_w img_h < t.subpart_w) &&
    decide (seamless img_w img_h < t.subpart_h) &&
    keep t.subpart_x t.subpart_y

/-- OpenGL enum value GL_RGBA. -/
def GL_RGBA : Nat := 0x1908

/-- OpenGL enum value GL_RGB. -/
def GL_RGB : Nat := 0x1907

/-- OpenGL enum value GL_RED. -/
def GL_RED : Nat := 0x1903

/-- OpenGL enum value GL_FLOAT. -/
def GL_FLOAT : Nat := 0x1406

/-- OpenGL enum value GL_UNSIGNED_BYTE. -/
def GL_UNSIGNED_BYTE : Nat := 0x1401

/-- Component count chosen by immDrawPixelsTexScaled_clipping from the pixel
format: 4 for GL_RGBA, 3 for GL_RGB, 1 for GL_RED, and none for any other
format, in which case the C code asserts and returns without drawing. -/
def components_of_format (format : Nat) : Option Nat :=
  if format = GL_RGBA then some 4
  else if format = GL_RGB then some 3
  else if format = GL_RED then some 1
  else none

/-- use_clipping = (clip_min_x < clip_max_x) and (clip_min_y < clip_max_y),
with the C float comparisons carried out over the rationals. -/
def use_clipping (clip_min_x clip_min_y clip_max_x clip_max_y : ℚ) : Bool :=
  decide (clip_min_x < clip_max_x) && decide (clip_min_y < clip_max_y)

/-- Argument record of immDrawPixelsTexScaled_clipping.  The rect pointer is
modelled as an opaque address; float arguments are rationals. -/
structure ImmArgs where
  x : ℚ
  y : ℚ
  img_w : Nat
  img_h : Nat
  format : Nat
  ty : Nat
  zoomfilter : Int
  rect : Nat
  scaleX : ℚ
  scaleY : ℚ
  clip_min_x : ℚ
  clip_min_y : ℚ
  clip_max_x : ℚ
  clip_max_y : ℚ
  xzoom : ℚ
  yzoom : ℚ
  color : Option (ℚ × ℚ × ℚ × ℚ)
deriving DecidableEq

/-- One iteration of the subpart loop that was not skipped: the tile, its
seamless border offsets, the raster position, the element offset into rect
of the main glTexSubImage2D upload, and the texture coordinates and vertex
positions of the quad sent through the immediate-mode API. -/
structure DrawCall where
  tile : Tile
  offset_left : Nat
  offset_bot : Nat
  offset_right : Nat
  offset_top : Nat
  rast_x : ℚ
  rast_y : ℚ
  src_elem_offset : Nat
  texcoords : List (ℚ × ℚ)
  verts : List (ℚ × ℚ)
deriving DecidableEq

/-- Result of immDrawPixelsTexScaled_clipping: the color passed to the
shader (white when the color argument is null) and the draw calls issued. -/
structure ImmDrawResult where
  modulate_color : ℚ × ℚ × ℚ × ℚ
  calls : List DrawCall
deriving DecidableEq

/-- Shallow embedding of immDrawPixelsTexScaled_clipping (glutil.c lines
628..780).  GL state changes (texture binding and parameters, pixel store
modes, shader program lookup) are outside the embedding; the function
returns the modulation color and the list of per-tile draw calls the
subpart loop issues, or none when the format check fails and the C code
returns early.  The C float arithmetic is carried out over the rationals. -/
def immDrawPixelsTexScaled_clipping (a : ImmArgs) : Option ImmDrawResult :=
  match components_of_format a.format with
  | none => none
  | some components =>
    let sml := seamless a.img_w a.img_h
    let ox := offset_x a.img_w a.img_h
    let oy := offset_y a.img_w a.img_h
    let nsx := nsubparts_x a.img_w a.img_h
    let nsy := nsubparts_y a.img_w a.img_h
    let clip := use_clipping a.clip_min_x a.clip_min_y a.clip_max_x a.clip_max_y
    let white : ℚ × ℚ × ℚ × ℚ := (1, 1, 1, 1)
    let calls := (List.range nsy).flatMap fun sy =>
      (List.range nsx).filterMap fun sx =>
        let remainder_x := a.img_w - sx * ox
        let remainder_y := a.img_h - sy * oy
        let sw := min remainder_x tex_w
        let sh := min remainder_y tex_h
        let offl : Nat := if sml ≠ 0 ∧ sx ≠ 0 then 1 else 0
        let offb : Nat := if sml ≠ 0 ∧ sy ≠ 0 then 1 else 0
        let offr : Nat := if sml ≠ 0 ∧ tex_w < remainder_x then 1 else 0
        let offt : Nat := if sml ≠ 0 ∧ tex_h < remainder_y then 1 else 0
        let rast_x := a.x + ((sx * ox : Nat) : ℚ) * a.xzoom
        let rast_y := a.y + ((sy * oy : Nat) : ℚ) * a.yzoom
        if sw ≤ sml ∨ sh ≤ sml then none
        else if clip ∧
            (rast_x + ((sw - offr : Nat) : ℚ) * a.xzoom * a.scaleX < a.clip_min_x ∨
             rast_y + ((sh - offt : Nat) : ℚ) * a.yzoom * a.scaleY < a.clip_min_y) then none
        else if clip ∧
            (rast_x + (offl : ℚ) * a.xzoom > a.clip_max_x ∨
             rast_y + (offb : ℚ) * a.yzoom > a.clip_max_y) then none
        else some
          { tile := ⟨sx, sy, sw, sh⟩
            offset_left := offl
            offset_bot := offb
            offset_right := offr
            offset_top := offt
            rast_x := rast_x
            rast_y := rast_y
            src_elem_offset := sy * oy * a.img_w * components + sx * ox * components
            texcoords :=
              [ ((offl : ℚ) / (tex_w : ℚ), (offb : ℚ) / (tex_h : ℚ)),
                (((sw - offr : Nat) : ℚ) / (tex_w : ℚ), (offb : ℚ) / (tex_h : ℚ)),
                (((sw - offr : Nat) : ℚ) / (tex_w : ℚ), ((sh - offt : Nat) : ℚ) / (tex_h : ℚ)),
                ((offl : ℚ) / (tex_w : ℚ), ((sh - offt : Nat) : ℚ) / (tex_h : ℚ)) ]
            verts :=
              [ (rast_x + (offl : ℚ) * a.xzoom,
                 rast_y + (offb : ℚ) * a.yzoom),
                (rast_x + ((sw - offr : Nat) : ℚ) * a.xzoom * a.scaleX,
                 rast_y + (offb : ℚ) * a.yzoom),
                (rast_x + ((sw - offr : Nat) : ℚ) * a.xzoom * a.scaleX,
                 rast_y + ((sh - offt : Nat) : ℚ) * a.yzoom * a.scaleY),
                (rast_x + (offl : ℚ) * a.xzoom,
                 rast_y + ((sh - offt : Nat) : ℚ) * a.yzoom * a.scaleY) ] }
    some { modulate_color := a.color.getD white, calls := calls }

/-- Embedding of the wrapper immDrawPixelsTexScaled (glutil.c lines
782..788): it forwards to immDrawPixelsTexScaled_clipping with all four
clip bounds 0. -/
def immDrawPixelsTexScaled (x y : ℚ) (img_w img_h format ty : Nat)
    (zoomfilter : Int) (rect : Nat) (scaleX scaleY xzoom yzoom : ℚ)
    (color : Option (ℚ × ℚ × ℚ × ℚ)) : Option ImmDrawResult :=
  immDrawPixelsTexScaled_clipping
    ⟨x, y, img_w, img_h, format, ty, zoomfilter, rect, scaleX, scaleY,
      0, 0, 0, 0, xzoom, yzoom, color⟩

/-- Embedding of the wrapper immDrawPixelsTex (glutil.c lines 790..795): it
forwards to immDrawPixelsTexScaled_clipping with scaleX = scaleY = 1 and
all four clip bounds 0. -/
def immDrawPixelsTex (x y : ℚ) (img_w img_h format ty : Nat)
    (zoomfilter : Int) (rect : Nat) (xzoom yzoom : ℚ)
    (color : Option (ℚ × ℚ × ℚ × ℚ)) : Option ImmDrawResult :=
  immDrawPixelsTexScaled_clipping
    ⟨x, y, img_w, img_h, format, ty, zoomfilter, rect, 1, 1,
      0, 0, 0, 0, xzoom, yzoom, color⟩

/-- One routine of glutil.c touching the oversized-image tiling logic, as
the routine stands in the source text: whether its text lies inside the
preprocessor-disabled block starting at line 355, whether it carries an
obsolete, unused or deprecated marking, whether it performs the tiling, and
whether it is reachable from the live public interface of the file. -/
structure GlutilRoutine where
  name : String
  insideIfZeroBlock : Bool
  markedObsoleteOrDeprecated : Bool
  performsTiling : Bool
  reachableFromLivePublicInterface : Bool
deriving DecidableEq

/-- The occurrences of the oversized-image tiling logic in glutil.c,
transcribed from the source text: glaDrawPixelsTexScaled_clipping (lines
357..490) lies inside the disabled block whose opening line carries the
comment Obsolete / unused, while immDrawPixelsTexScaled_clipping (lines
628..780) is compiled, carries no obsolete or deprecated marking, and is
reached from the live public entry points immDrawPixelsTex,
immDrawPixelsTexScaled, immDrawPixelsTex_clipping and
glaDrawImBuf_glsl_clipping. -/
def tilingRoutines : List GlutilRoutine :=
  [ ⟨"glaDrawPixelsTexScaled_clipping", true, true, true, false⟩,
    ⟨"immDrawPixelsTexScaled_clipping", false, false, true, true⟩ ]

end Glutil

namespace AssetSystem

/-- One operation of the asset layer as defined in asset_library.cc, with
whether the body of the operation acquires a lock, mutex or other
synchronization primitive, transcribed from the source text. -/
structure AssetOperation where
  name : String
  acquiresLock : Bool
deriving DecidableEq

/-- Every AS_* entry point and every AssetLibrary operation defined in
asset_library.cc, with its lock usage transcribed from the source text:
only AssetLibrary::load_catalogs acquires a synchronization primitive, the
std::lock_guard on catalog_service_mutex_ at line 192. -/
def assetLayerOperations : List AssetOperation :=
  [ ⟨"AS_asset_libraries_exit", false⟩,
    ⟨"AS_asset_library_load(bmain, library_reference)", false⟩,
    ⟨"AS_asset_library_load(name, library_dirpath)", false⟩,
    ⟨"AS_asset_library_has_any_unsaved_catalogs", false⟩,
    ⟨"AS_asset_library_root_path_from_library_ref", false⟩,
    ⟨"AS_asset_library_find_suitable_root_path_from_path", false⟩,
    ⟨"AS_asset_library_find_suitable_root_path_from_main", false⟩,
    ⟨"AS_asset_library_remap_ids", false⟩,
    ⟨"AS_asset_full_path_explode_from_weak_ref", false⟩,
    ⟨"AssetLibrary::AssetLibrary", false⟩,
    ⟨"AssetLibrary::~AssetLibrary", false⟩,
    ⟨"AssetLibrary::foreach_loaded", false⟩,
    ⟨"AssetLibrary::load_catalogs", true⟩,
    ⟨"AssetLibrary::catalog_service", false⟩,
    ⟨"AssetLibrary::refresh_catalogs", false⟩,
    ⟨"AssetLibrary::add_external_asset", false⟩,
    ⟨"AssetLibrary::add_local_id_asset", false⟩,
    ⟨"AssetLibrary::remove_asset", false⟩,
    ⟨"AssetLibrary::remap_ids_and_remove_invalid", false⟩,
    ⟨"AssetLibrary::on_blend_save_handler_register", false⟩,
    ⟨"AssetLibrary::on_blend_save_handler_unregister", false⟩,
    ⟨"AssetLibrary::on_blend_save_post", false⟩,
    ⟨"AssetLibrary::resolve_asset_weak_reference_to_full_path", false⟩,
    ⟨"AssetLibrary::refresh_catalog_simplename", false⟩,
    ⟨"AssetLibrary::library_type", false⟩,
    ⟨"AssetLibrary::name", false⟩,
    ⟨"AssetLibrary::root_path", false⟩,
    ⟨"all_valid_asset_library_refs", false⟩,
    ⟨"all_library_reference", false⟩,
    ⟨"all_library_reload_catalogs_if_dirty", false⟩ ]

/-- Modelled from the spec: the constructor bodies and accessors of
AssetRepresentation live in AS_asset_representation.cc, which is not among
the sources.  The model follows the data layout and documentation of
AS_asset_representation.hh: the union stores either a non-owning ID
pointer (local asset) or a name, id type and metadata (external asset),
the constant is_local_id_ flag selects the variant, and local_id() is
documented to return the ID pointer when is_local_id() is true and null
otherwise.  The variant of a representation. -/
inductive AssetVariant where
  | localId (id : Nat)
  | externalAsset (name : String) (id_type : Int) (metadata : Option Nat)
deriving DecidableEq

/-- An asset representation: the relative identifier within the library
plus the variant.  The model is immutable, matching the const union
selector in the header. -/
structure AssetRepresentation where
  relative_identifier : String
  variant : AssetVariant
deriving DecidableEq

/-- Constructor for an ID stored in the current file (local asset). -/
def AssetRepresentation.mk_local (relative_asset_path : String) (id : Nat) :
    AssetRepresentation :=
  ⟨relative_asset_path, .localId id⟩

/-- Constructor for an external asset. -/
def AssetRepresentation.mk_external (relative_asset_path name : String)
    (id_type : Int) (metadata : Option Nat) : AssetRepresentation :=
  ⟨relative_asset_path, .externalAsset name id_type metadata⟩

/-- is_local_id(): whether the representation wraps an ID of the current
file. -/
def AssetRepresentation.is_local_id (a : AssetRepresentation) : Bool :=
  match a.variant with
  | .localId _ => true
  | .externalAsset _ _ _ => false

/-- local_id(): the wrapped ID pointer when the asset is local, null
otherwise. -/
def AssetRepresentation.local_id (a : AssetRepresentation) : Option Nat :=
  match a.variant with
  | .localId i => some i
  | .externalAsset _ _ _ => none

/-- Storage of an asset library as used by add_external_asset,
add_local_id_asset and remove_asset: the set of local-ID assets and the set
of external assets, modelled as duplicate-free lists of handles.  A handle
stands for the address of a heap-allocated AssetRepresentation; the
shared_ptr ownership held by these sets is modelled as membership, and the
weak pointer handed back to callers as the bare handle. -/
structure AssetStorage where
  local_id_assets : List Nat
  external_assets : List Nat
deriving DecidableEq

/-- Embedding of AssetLibrary::add_external_asset: lookup_key_or_add on the
external set, returning the stored key as a weak pointer.  A freshly
allocated representation is never already a member. -/
def add_external_asset (st : AssetStorage) (asset : Nat) : AssetStorage × Nat :=
  if asset ∈ st.external_assets then (st, asset)
  else ({ st with external_assets := asset :: st.external_assets }, asset)

/-- Embedding of AssetLibrary::add_local_id_asset: lookup_key_or_add on the
local-ID set, returning the stored key as a weak pointer. -/
def add_local_id_asset (st : AssetStorage) (asset : Nat) : AssetStorage × Nat :=
  if asset ∈ st.local_id_assets then (st, asset)
  else ({ st with local_id_assets := asset :: st.local_id_assets }, asset)

/-- Embedding of AssetLibrary::remove_asset: remove from the local-ID set
and report success, otherwise remove from the external set and report
whether the asset was there. -/
def remove_asset (st : AssetStorage) (asset : Nat) : AssetStorage × Bool :=
  if asset ∈ st.local_id_assets then
    ({ st with local_id_assets := st.local_id_assets.erase asset }, true)
  else if asset ∈ st.external_assets then
    ({ st with external_assets := st.external_assets.erase asset }, true)
  else (st, false)

/-- The AssetLibraryService as visible to AS_asset_library_load: the
library of the current file and the resolver of on-disk custom libraries.
The service lives in asset_library_service.hh, which is not among the
sources; it is abstracted as the record of the two accessors the function
may call.  Libraries are handles. -/
structure AssetLibraryService where
  current_file_library : Nat
  on_disk_custom_library : String → String → Nat

/-- Embedding of AS_asset_library_load(name, library_dirpath)
(asset_library.cc lines 51..65): a null or empty dirpath selects the
current-file library, anything else the on-disk custom library resolved by
the service; the service is consulted in every case. -/
def AS_asset_library_load (service : AssetLibraryService) (name : String)
    (library_dirpath : Option String) : Nat :=
  match library_dirpath with
  | none => service.current_file_library
  | some dirpath =>
    if dirpath = "" then service.current_file_library
    else service.on_disk_custom_library name dirpath

/-- A catalog as consumed by refresh_catalog_simplename: only its simple
name matters there. -/
structure AssetCatalog where
  simple_name : List Char
deriving DecidableEq

/-- Asset metadata as touched by refresh_catalog_simplename: the catalog
UUID (modelled as a natural number, with 0 playing the role of the nil
UUID), the catalog simple name as the value of the C string stored in the
64-byte DNA field, and the remaining fields of the DNA struct bundled as
an opaque rest component so the frame conditions can be stated. -/
structure AssetMetaData (α : Type) where
  catalog_id : Nat
  catalog_simple_name : List Char
  rest : α
deriving DecidableEq

/-- Embedding of AssetLibrary::refresh_catalog_simplename (asset_library.cc
lines 296..309); the catalog service lookup find_catalog is abstracted as a
function argument.  Writing NUL into the first byte of the char array makes
the stored C string empty; STRNCPY into the 64-byte field truncates the
copied name to 63 characters. -/
def refresh_catalog_simplename {α : Type}
    (find_catalog : Nat → Option AssetCatalog)
    (asset_data : AssetMetaData α) : AssetMetaData α :=
  if asset_data.catalog_id = 0 then
    { asset_data with catalog_simple_name := [] }
  else
    match find_catalog asset_data.catalog_id with
    | none => asset_data
    | some catalog =>
      { asset_data with catalog_simple_name := catalog.simple_name.take 63 }

/-- The type tag of an asset library reference. -/
inductive LibraryType where
  | ASSET_LIBRARY_ESSENTIALS
  | ASSET_LIBRARY_CUSTOM
  | ASSET_LIBRARY_LOCAL
  | ASSET_LIBRARY_ALL
deriving DecidableEq

/-- A reference to an asset library: the type tag and the custom library
index. -/
structure AssetLibraryReference where
  ty : LibraryType
  custom_library_index : Int
deriving DecidableEq

/-- A user asset library from the preferences, as consumed by
all_valid_asset_library_refs: only the dirpath matters there. -/
structure BUserAssetLibrary where
  dirpath : String
deriving DecidableEq

/-- The LISTBASE_FOREACH_INDEX loop of all_valid_asset_library_refs:
append, for each user library whose dirpath is an existing directory, a
custom reference carrying the running index of the library in the
preferences list.  BLI_is_dir is abstracted as the boolean oracle is_dir. -/
def validCustomRefsFrom (is_dir : String → Bool) :
    List BUserAssetLibrary → Nat → List AssetLibraryReference
  | [], _ => []
  | lib :: libs, i =>
    (if is_dir lib.dirpath then
      [⟨.ASSET_LIBRARY_CUSTOM, (i : Int)⟩]
    else []) ++ validCustomRefsFrom is_dir libs (i + 1)

/-- Embedding of all_valid_asset_library_refs (asset_library.cc lines
326..351): the essentials reference, then the custom references of the
user libraries with an existing directory, then the local reference. -/
def all_valid_asset_library_refs (is_dir : String → Bool)
    (asset_libraries : List BUserAssetLibrary) : List AssetLibraryReference :=
  ⟨.ASSET_LIBRARY_ESSENTIALS, -1⟩ ::
    (validCustomRefsFrom is_dir asset_libraries 0 ++
      [⟨.ASSET_LIBRARY_LOCAL, -1⟩])

/-- NUL character, the C string terminator. -/
def nulChar : Char := Char.ofNat 0

/-- FILE_MAX_LIBEXTRA, the size of the exploded path buffer. -/
def FILE_MAX_LIBEXTRA : Nat := 1090

/-- An exploded path as produced by the AssetLibraryService: the full path
and the sizes of its directory, group and name components.  The service
exposes the components as string references into the full path; only their
sizes and emptiness are consumed by the function modelled here. -/
structure ExplodedPath where
  full_path : List Char
  dir_size : Nat
  group_size : Nat
  name_size : Nat
deriving DecidableEq

/-- BLI_strncpy: copy at most maxncpy - 1 characters of the source and
NUL-terminate.  The destination buffer is modelled as the list of bytes
written. -/
def bli_strncpy (src : List Char) (maxncpy : Nat) : List Char :=
  src.take (maxncpy - 1) ++ [nulChar]

/-- Out parameters written by AS_asset_full_path_explode_from_weak_ref.
For a requested pointer the field holds some v, where v is the stored
value: none for a stored null pointer and some i for a stored pointer into
the path buffer at offset i.  The field is none when the caller passed
null for the out pointer itself and nothing is stored. -/
structure ExplodeOut where
  path_buffer : List Char
  r_dir : Option (Option Nat)
  r_group : Option (Option Nat)
  r_name : Option (Option Nat)
deriving DecidableEq

/-- Embedding of AS_asset_full_path_explode_from_weak_ref
(asset_library.cc lines 105..162).  The weak reference resolution done by
the AssetLibraryService lives outside the sources and is abstracted as the
Option valued argument exploded. -/
def AS_asset_full_path_explode_from_weak_ref (exploded : Option ExplodedPath)
    (want_dir want_group want_name : Bool) : ExplodeOut :=
  match exploded with
  | none =>
    { path_buffer := [nulChar]
      r_dir := if want_dir then some none else none
      r_group := if want_group then some none else none
      r_name := if want_name then some none else none }
  | some e =>
    let buffer0 := bli_strncpy e.full_path FILE_MAX_LIBEXTRA
    if e.dir_size ≠ 0 then
      let buffer := (buffer0.set e.dir_size nulChar).set
        (e.dir_size + 1 + e.group_size) nulChar
      { path_buffer := buffer
        r_dir := if want_dir then some (some 0) else none
        r_group := if want_group then some (some (e.dir_size + 1)) else none
        r_name := if want_name then
            some (some (e.dir_size + 1 + e.group_size + 1))
          else none }
    else
      let buffer := buffer0.set e.group_size nulChar
      { path_buffer := buffer
        r_dir := if want_dir then some none else none
        r_group := if want_group then some (some 0) else none
        r_name := if want_name then some (some (e.group_size + 1)) else none }

/-- The C string starting at offset i of a buffer: the bytes up to the
first NUL. -/
def cstrAt (buffer : List Char) (i : Nat) : List Char :=
  (buffer.drop i).takeWhile fun c => c != nulChar

end AssetSystem

namespace Glutil

/-- Ceiling of a quotient of naturals, taken over the rationals, equals the
rounded-up natural division (a + b - 1) / b. -/
theorem ceil_natCast_div (a b : Nat) (hb : 0 < b) :
    ⌈(a : ℚ) / (b : ℚ)⌉ = (((a + b - 1) / b : Nat) : ℤ) := by
  have hbq : (0 : ℚ) < (b : ℚ) := by exact_mod_cast hb
  have hdm := Nat.div_add_mod (a + b - 1) b
  have hml : (a + b - 1) % b < b := Nat.mod_lt _ hb
  have h1 : a ≤ b * ((a + b - 1) / b) := by omega
  have h2 : b * ((a + b - 1) / b) < a + b := by omega
  refine le_antisymm ?_ ?_
  · rw [Int.ceil_le]
    push_cast
    rw [div_le_iff₀ hbq, mul_comm]
    exact_mod_cast h1
  · rw [Int.le_ceil_iff]
    have h2q : (b : ℚ) * (((a + b - 1) / b : Nat) : ℚ) < (a : ℚ) + (b : ℚ) := by
      exact_mod_cast h2
    simp only [Int.cast_natCast]
    rw [lt_div_iff₀ hbq]
    nlinarith [h2q]

/-- Claim C1: with the 256 by 256 cached work texture, an oversized image
(img_w > tex_w or img_h > tex_h) gets seamless = 2 and is split into
ceil(img_w / (tex_w - 2)) by ceil(img_h / (tex_h - 2)) tiles; otherwise
seamless = 0, both tile counts equal ceil(img_w / tex_w) = 1 and
ceil(img_h / tex_h) = 1, and exactly the one tile covering the whole image
is uploaded; every tile of the loop has width at most tex_w and height at
most tex_h. -/
theorem c1_tiling (img_w img_h : Nat) (hw : 1 ≤ img_w) (hh : 1 ≤ img_h) :
    ((tex_w < img_w ∨ tex_h < img_h) →
        seamless img_w img_h = 2 ∧
        (nsubparts_x img_w img_h : ℤ) = ⌈(img_w : ℚ) / ((tex_w : ℚ) - 2)⌉ ∧
        (nsubparts_y img_w img_h : ℤ) = ⌈(img_h : ℚ) / ((tex_h : ℚ) - 2)⌉) ∧
    (¬(tex_w < img_w ∨ tex_h < img_h) →
        seamless img_w img_h = 0 ∧
        nsubparts_x img_w img_h = 1 ∧
        nsubparts_y img_w img_h = 1 ∧
        (1 : ℤ) = ⌈(img_w : ℚ) / (tex_w : ℚ)⌉ ∧
        (1 : ℤ) = ⌈(img_h : ℚ) / (tex_h : ℚ)⌉ ∧
        uploads img_w img_h (fun _ _ => true) =
          [{ subpart_x := 0, subpart_y := 0, subpart_w := img_w, subpart_h := img_h }]) ∧
    (∀ t ∈ tiles img_w img_h, t.subpart_w ≤ tex_w ∧ t.subpart_h ≤ tex_h) := by
  refine ⟨?_, ?_, ?_⟩
  · intro hbig
    have hs : seamless img_w img_h = 2 := by
      simp only [seamless, tex_w, tex_h] at hbig ⊢
      rw [if_pos ⟨hbig, by norm_num, by norm_num⟩]
    refine ⟨hs, ?_, ?_⟩
    · rw [show ((tex_w : ℚ) - 2) = ((254 : Nat) : ℚ) by norm_num [tex_w],
        ceil_natCast_div img_w 254 (by norm_num)]
      simp [nsubparts_x, offset_x, hs, tex_w]
    · rw [show ((tex_h : ℚ) - 2) = ((254 : Nat) : ℚ) by norm_num [tex_h],
        ceil_natCast_div img_h 254 (by norm_num)]
      simp [nsubparts_y, offset_y, hs, tex_h]
  · intro hsmall
    push_neg at hsmall
    obtain ⟨hsw, hsh⟩ := hsmall
    simp only [tex_w, tex_h, not_lt] at hsw hsh
    have hs : seamless img_w img_h = 0 := by
      simp only [seamless, tex_w, tex_h]
      rw [if_neg]
      rintro ⟨h | h, -⟩ <;> omega
    have hox : offset_x img_w img_h = 256 := by
      simp [offset_x, hs, tex_w]
    have hoy : offset_y img_w img_h = 256 := by
      simp [offset_y, hs, tex_h]
    have hnx : nsubparts_x img_w img_h = 1 := by
      simp only [nsubparts_x, hox]; omega
    have hny : nsubparts_y img_w img_h = 1 := by
      simp only [nsubparts_y, hoy]; omega
    refine ⟨hs, hnx, hny, ?_, ?_, ?_⟩
    · rw [show ((tex_w : ℚ)) = ((256 : Nat) : ℚ) by norm_num [tex_w],
        ceil_natCast_div img_w 256 (by norm_num)]
      norm_cast
      omega
    · rw [show ((tex_h : ℚ)) = ((256 : Nat) : ℚ) by norm_num [tex_h],
        ceil_natCast_div img_h 256 (by norm_num)]
      norm_cast
      omega
    · have htiles : tiles img_w img_h =
          [{ subpart_x := 0, subpart_y := 0, subpart_w := img_w, subpart_h := img_h }] := by
        simp only [tiles, hnx, hny, hox, hoy, show List.range 1 = [0] from rfl,
          List.flatMap_cons, List.flatMap_nil, List.map_cons, List.map_nil,
          List.append_nil, List.cons.injEq, and_true, Tile.mk.injEq, true_and,
          tex_w, tex_h]
        omega
      simp only [uploads, htiles, hs, List.filter_cons, List.filter_nil]
      simp [show 0 < img_w by omega, show 0 < img_h by omega]
  · intro t ht
    simp only [tiles, List.mem_flatMap, List.mem_map, List.mem_range] at ht
    obtain ⟨sy, -, sx, -, rfl⟩ := ht
    exact ⟨min_le_right _ _, min_le_right _ _⟩

/-- Witness for c1_tiling at img_w = 300, img_h = 100. -/
theorem c1_tiling_witness :
    ((tex_w < 300 ∨ tex_h < 100) →
        seamless 300 100 = 2 ∧
        (nsubparts_x 300 100 : ℤ) = ⌈(300 : ℚ) / ((tex_w : ℚ) - 2)⌉ ∧
        (nsubparts_y 300 100 : ℤ) = ⌈(100 : ℚ) / ((tex_h : ℚ) - 2)⌉) ∧
    (¬(tex_w < 300 ∨ tex_h < 100) →
        seamless 300 100 = 0 ∧
        nsubparts_x 300 100 = 1 ∧
        nsubparts_y 300 100 = 1 ∧
        (1 : ℤ) = ⌈(300 : ℚ) / (tex_w : ℚ)⌉ ∧
        (1 : ℤ) = ⌈(100 : ℚ) / (tex_h : ℚ)⌉ ∧
        uploads 300 100 (fun _ _ => true) =
          [{ subpart_x := 0, subpart_y := 0, subpart_w := 300, subpart_h := 100 }]) ∧
    (∀ t ∈ tiles 300 100, t.subpart_w ≤ tex_w ∧ t.subpart_h ≤ tex_h) := by
  have h := c1_tiling 300 100 (by norm_num) (by norm_num)
  exact_mod_cast h

/-- Claim C6: immDrawPixelsTex coincides with immDrawPixelsTexScaled_clipping
at scaleX = scaleY = 1 and all four clip bounds 0, immDrawPixelsTexScaled
coincides with it at the same zero clip bounds, and those zero clip bounds
disable clipping; the wrappers add no behaviour of their own. -/
theorem c6_wrappers (x y : ℚ) (img_w img_h format ty : Nat) (zoomfilter : Int)
    (rect : Nat) (scaleX scaleY xzoom yzoom : ℚ)
    (color : Option (ℚ × ℚ × ℚ × ℚ)) :
    immDrawPixelsTex x y img_w img_h format ty zoomfilter rect xzoom yzoom color =
      immDrawPixelsTexScaled_clipping
        ⟨x, y, img_w, img_h, format, ty, zoomfilter, rect, 1, 1,
          0, 0, 0, 0, xzoom, yzoom, color⟩ ∧
    immDrawPixelsTexScaled x y img_w img_h format ty zoomfilter rect
        scaleX scaleY xzoom yzoom color =
      immDrawPixelsTexScaled_clipping
        ⟨x, y, img_w, img_h, format, ty, zoomfilter, rect, scaleX, scaleY,
          0, 0, 0, 0, xzoom, yzoom, color⟩ ∧
    use_clipping 0 0 0 0 = false :=
  ⟨rfl, rfl, by decide⟩

/-- Claim C2 is false on the source: it is not the case that every
occurrence of the tiling logic is disabled or marked obsolete with no
reachable routine performing the tiling; immDrawPixelsTexScaled_clipping is
the concrete counterexample, and the live tiling model indeed splits a
300 by 100 image into 2 uploaded tiles. -/
theorem c2_counterexample :
    ¬ (∀ r ∈ tilingRoutines, r.performsTiling = true →
        (r.insideIfZeroBlock = true ∨ r.markedObsoleteOrDeprecated = true) ∧
        r.reachableFromLivePublicInterface = false) ∧
    (uploads 300 100 (fun _ _ => true)).length = 2 := by
  constructor
  · intro hall
    have h := hall ⟨"immDrawPixelsTexScaled_clipping", false, false, true, true⟩
      (by simp [tilingRoutines]) rfl
    simpa using h.1
  · decide

/-- Claim C2 amended: of the two occurrences of the oversized-image tiling
logic in glutil.c, exactly the gla one is preprocessor-disabled and marked
obsolete; the imm one performs the tiling, carries no such marking, and is
reachable from the live public interface. -/
theorem c2_tiling_partly_obsolete :
    (tilingRoutines.all fun r => r.performsTiling) = true ∧
    (tilingRoutines.all fun r =>
      r.insideIfZeroBlock == r.markedObsoleteOrDeprecated) = true ∧
    (tilingRoutines.all fun r =>
      r.reachableFromLivePublicInterface == !r.insideIfZeroBlock) = true ∧
    (tilingRoutines.any fun r =>
      (r.name == "immDrawPixelsTexScaled_clipping") && !r.insideIfZeroBlock &&
        !r.markedObsoleteOrDeprecated && r.reachableFromLivePublicInterface) = true ∧
    (uploads 300 100 (fun _ _ => true)).length = 2 := by
  refine ⟨rfl, rfl, rfl, rfl, by decide⟩

end Glutil

namespace AssetSystem

/-- Claim C3 is false on the source: it is not the case that no asset layer
operation acquires a synchronization primitive; AssetLibrary::load_catalogs
acquires the std::lock_guard on catalog_service_mutex_. -/
theorem c3_counterexample :
    (assetLayerOperations.all fun op => !op.acquiresLock) = false ∧
    (⟨"AssetLibrary::load_catalogs", true⟩ : AssetOperation) ∈ assetLayerOperations := by
  exact ⟨rfl, by decide⟩

/-- Claim C3 amended: AssetLibrary::load_catalogs is the one asset layer
operation that acquires a synchronization primitive (a std::lock_guard on
catalog_service_mutex_); every other operation acquires none. -/
theorem c3_only_load_catalogs_locks :
    (assetLayerOperations.all fun op =>
      op.acquiresLock == (op.name == "AssetLibrary::load_catalogs")) = true := by
  decide

/-- Claim C4: every representation arises from the local or the external
constructor, the constructors fix is_local_id once and for all (the model
is immutable, as is the const member in the header), and local_id returns
the wrapped ID exactly when is_local_id holds and null otherwise. -/
theorem c4_local_id_iff (a : AssetRepresentation) :
    ((∃ p i, a = AssetRepresentation.mk_local p i) ∨
      (∃ p n t m, a = AssetRepresentation.mk_external p n t m)) ∧
    (∀ p i, (AssetRepresentation.mk_local p i).is_local_id = true) ∧
    (∀ p n t m, (AssetRepresentation.mk_external p n t m).is_local_id = false) ∧
    (a.local_id.isSome = true ↔ a.is_local_id = true) ∧
    (a.is_local_id = false → a.local_id = none) ∧
    (∀ p i, (AssetRepresentation.mk_local p i).local_id = some i) := by
  refine ⟨?_, fun p i => rfl, fun p n t m => rfl, ?_, ?_, fun p i => rfl⟩
  · obtain ⟨rid, v⟩ := a
    cases v with
    | localId i => exact Or.inl ⟨rid, i, rfl⟩
    | externalAsset n t m => exact Or.inr ⟨rid, n, t, m, rfl⟩
  · obtain ⟨rid, v⟩ := a
    cases v <;> simp [AssetRepresentation.is_local_id, AssetRepresentation.local_id]
  · obtain ⟨rid, v⟩ := a
    cases v <;> simp [AssetRepresentation.is_local_id, AssetRepresentation.local_id]

/-- Witness for c4_local_id_iff at a concrete local asset. -/
theorem c4_local_id_iff_witness :
    ((∃ p i, AssetRepresentation.mk_local "obj" 5 = AssetRepresentation.mk_local p i) ∨
      (∃ p n t m, AssetRepresentation.mk_local "obj" 5 =
        AssetRepresentation.mk_external p n t m)) ∧
    (∀ p i, (AssetRepresentation.mk_local p i).is_local_id = true) ∧
    (∀ p n t m, (AssetRepresentation.mk_external p n t m).is_local_id = false) ∧
    ((AssetRepresentation.mk_local "obj" 5).local_id.isSome = true ↔
      (AssetRepresentation.mk_local "obj" 5).is_local_id = true) ∧
    ((AssetRepresentation.mk_local "obj" 5).is_local_id = false →
      (AssetRepresentation.mk_local "obj" 5).local_id = none) ∧
    (∀ p i, (AssetRepresentation.mk_local p i).local_id = some i) :=
  c4_local_id_iff (AssetRepresentation.mk_local "obj" 5)

/-- Claim C5: adding an asset stores it in the corresponding set (ownership
by the storage) and hands the caller the handle of the stored
representation; remove_asset returns true exactly when the asset is present
in the local-ID set or the external set, and afterwards the storage no
longer owns it.  The two sets are disjoint in every reachable storage
since a representation is inserted into exactly one of them. -/
theorem c5_storage_ownership (st : AssetStorage) (asset : Nat)
    (hl : st.local_id_assets.Nodup) (he : st.external_assets.Nodup)
    (hdisj : ∀ x ∈ st.local_id_assets, x ∉ st.external_assets) :
    ((add_external_asset st asset).2 = asset ∧
      asset ∈ (add_external_asset st asset).1.external_assets) ∧
    ((add_local_id_asset st asset).2 = asset ∧
      asset ∈ (add_local_id_asset st asset).1.local_id_assets) ∧
    ((remove_asset st asset).2 = true ↔
      asset ∈ st.local_id_assets ∨ asset ∈ st.external_assets) ∧
    (asset ∉ (remove_asset st asset).1.local_id_assets ∧
      asset ∉ (remove_asset st asset).1.external_assets) := by
  refine ⟨?_, ?_, ?_, ?_⟩
  · unfold add_external_asset
    split <;> simp_all
  · unfold add_local_id_asset
    split <;> simp_all
  · unfold remove_asset
    split
    · simp_all
    · split <;> simp_all
  · unfold remove_asset
    split
    · rename_i hmem
      exact ⟨hl.not_mem_erase, fun hc => hdisj asset hmem hc⟩
    · split
      · rename_i hnmem hmem
        exact ⟨hnmem, he.not_mem_erase⟩
      · rename_i hnl hne
        exact ⟨hnl, hne⟩

/-- Witness for c5_storage_ownership at a concrete storage. -/
theorem c5_storage_ownership_witness :
    ((add_external_asset ⟨[1], [2]⟩ 3).2 = 3 ∧
      3 ∈ (add_external_asset ⟨[1], [2]⟩ 3).1.external_assets) ∧
    ((add_local_id_asset ⟨[1], [2]⟩ 3).2 = 3 ∧
      3 ∈ (add_local_id_asset ⟨[1], [2]⟩ 3).1.local_id_assets) ∧
    ((remove_asset ⟨[1], [2]⟩ 3).2 = true ↔
      3 ∈ AssetStorage.local_id_assets ⟨[1], [2]⟩ ∨
        3 ∈ AssetStorage.external_assets ⟨[1], [2]⟩) ∧
    (3 ∉ (remove_asset ⟨[1], [2]⟩ 3).1.local_id_assets ∧
      3 ∉ (remove_asset ⟨[1], [2]⟩ 3).1.external_assets) :=
  c5_storage_ownership ⟨[1], [2]⟩ 3 (by decide) (by decide) (by decide)

/-- Claim C7: AS_asset_library_load returns the current-file library when
the dirpath is null or empty, the on-disk custom library resolved by the
service for the given name and dirpath otherwise, and in every case the
returned library comes from the AssetLibraryService. -/
theorem c7_load_dispatch (service : AssetLibraryService) (name : String)
    (library_dirpath : Option String) :
    ((library_dirpath = none ∨ library_dirpath = some "") →
      AS_asset_library_load service name library_dirpath =
        service.current_file_library) ∧
    (∀ dirpath, dirpath ≠ "" → library_dirpath = some dirpath →
      AS_asset_library_load service name library_dirpath =
        service.on_disk_custom_library name dirpath) ∧
    (AS_asset_library_load service name library_dirpath =
        service.current_file_library ∨
      ∃ dirpath, library_dirpath = some dirpath ∧
        AS_asset_library_load service name library_dirpath =
          service.on_disk_custom_library name dirpath) := by
  refine ⟨?_, ?_, ?_⟩
  · rintro (rfl | rfl) <;> simp [AS_asset_library_load]
  · rintro dirpath hne rfl
    simp [AS_asset_library_load, hne]
  · cases library_dirpath with
    | none => exact Or.inl rfl
    | some dirpath =>
      by_cases hempty : dirpath = ""
      · subst hempty
        exact Or.inl (by simp [AS_asset_library_load])
      · exact Or.inr ⟨dirpath, rfl, by simp [AS_asset_library_load, hempty]⟩

/-- Witness for c7_load_dispatch at a concrete service and dirpath. -/
theorem c7_load_dispatch_witness :
    ((some "/assets" = none ∨ some "/assets" = some "") →
      AS_asset_library_load ⟨7, fun _ _ => 9⟩ "User Library" (some "/assets") =
        AssetLibraryService.current_file_library ⟨7, fun _ _ => 9⟩) ∧
    (∀ dirpath, dirpath ≠ "" → some "/assets" = some dirpath →
      AS_asset_library_load ⟨7, fun _ _ => 9⟩ "User Library" (some "/assets") =
        AssetLibraryService.on_disk_custom_library ⟨7, fun _ _ => 9⟩
          "User Library" dirpath) ∧
    (AS_asset_library_load ⟨7, fun _ _ => 9⟩ "User Library" (some "/assets") =
        AssetLibraryService.current_file_library ⟨7, fun _ _ => 9⟩ ∨
      ∃ dirpath, some "/assets" = some dirpath ∧
        AS_asset_library_load ⟨7, fun _ _ => 9⟩ "User Library" (some "/assets") =
          AssetLibraryService.on_disk_custom_library ⟨7, fun _ _ => 9⟩
            "User Library" dirpath) :=
  c7_load_dispatch ⟨7, fun _ _ => 9⟩ "User Library" (some "/assets")

/-- Claim C9: refresh_catalog_simplename empties the simple name on the nil
UUID, is a no-op when the catalog is not found, sets the simple name to the
found catalog name otherwise (stated for names that fit the 64-byte field),
and never changes any other field of the metadata. -/
theorem c9_refresh_simplename {α : Type}
    (find_catalog : Nat → Option AssetCatalog) (asset_data : AssetMetaData α) :
    (asset_data.catalog_id = 0 →
      refresh_catalog_simplename find_catalog asset_data =
        { asset_data with catalog_simple_name := [] }) ∧
    (asset_data.catalog_id ≠ 0 → find_catalog asset_data.catalog_id = none →
      refresh_catalog_simplename find_catalog asset_data = asset_data) ∧
    (∀ catalog, asset_data.catalog_id ≠ 0 →
      find_catalog asset_data.catalog_id = some catalog →
      catalog.simple_name.length ≤ 63 →
      refresh_catalog_simplename find_catalog asset_data =
        { asset_data with catalog_simple_name := catalog.simple_name }) ∧
    ((refresh_catalog_simplename find_catalog asset_data).catalog_id =
        asset_data.catalog_id ∧
      (refresh_catalog_simplename find_catalog asset_data).rest =
        asset_data.rest) := by
  refine ⟨?_, ?_, ?_, ?_⟩
  · intro h0
    simp [refresh_catalog_simplename, h0]
  · intro hne hnone
    simp [refresh_catalog_simplename, hne, hnone]
  · intro catalog hne hsome hlen
    simp [refresh_catalog_simplename, hne, hsome, List.take_of_length_le hlen]
  · unfold refresh_catalog_simplename
    split
    · exact ⟨rfl, rfl⟩
    · split
      · exact ⟨rfl, rfl⟩
      · exact ⟨rfl, rfl⟩

/-- Witness for c9_refresh_simplename at a concrete lookup and metadata. -/
theorem c9_refresh_simplename_witness :
    ((AssetMetaData.catalog_id ⟨5, ['z'], (0 : Nat)⟩) = 0 →
      refresh_catalog_simplename
          (fun i => if i = 5 then some ⟨['a', 'b']⟩ else none) ⟨5, ['z'], 0⟩ =
        { (⟨5, ['z'], 0⟩ : AssetMetaData Nat) with catalog_simple_name := [] }) ∧
    ((AssetMetaData.catalog_id ⟨5, ['z'], (0 : Nat)⟩) ≠ 0 →
      (fun i => if i = 5 then some (⟨['a', 'b']⟩ : AssetCatalog) else none)
          (AssetMetaData.catalog_id ⟨5, ['z'], (0 : Nat)⟩) = none →
      refresh_catalog_simplename
          (fun i => if i = 5 then some ⟨['a', 'b']⟩ else none) ⟨5, ['z'], 0⟩ =
        ⟨5, ['z'], 0⟩) ∧
    (∀ catalog, (AssetMetaData.catalog_id ⟨5, ['z'], (0 : Nat)⟩) ≠ 0 →
      (fun i => if i = 5 then some (⟨['a', 'b']⟩ : AssetCatalog) else none)
          (AssetMetaData.catalog_id ⟨5, ['z'], (0 : Nat)⟩) = some catalog →
      catalog.simple_name.length ≤ 63 →
      refresh_catalog_simplename
          (fun i => if i = 5 then some ⟨['a', 'b']⟩ else none) ⟨5, ['z'], 0⟩ =
        { (⟨5, ['z'], 0⟩ : AssetMetaData Nat) with
            catalog_simple_name := catalog.simple_name }) ∧
    ((refresh_catalog_simplename
        (fun i => if i = 5 then some ⟨['a', 'b']⟩ else none)
        (⟨5, ['z'], 0⟩ : AssetMetaData Nat)).catalog_id =
        (AssetMetaData.catalog_id ⟨5, ['z'], (0 : Nat)⟩) ∧
      (refresh_catalog_simplename
        (fun i => if i = 5 then some ⟨['a', 'b']⟩ else none)
        (⟨5, ['z'], 0⟩ : AssetMetaData Nat)).rest =
        (AssetMetaData.rest ⟨5, ['z'], (0 : Nat)⟩)) :=
  c9_refresh_simplename (fun i => if i = 5 then some ⟨['a', 'b']⟩ else none)
    ⟨5, ['z'], 0⟩

/-- The loop equals a filterMap over the index-enumerated preferences
list. -/
theorem validCustomRefsFrom_eq (is_dir : String → Bool)
    (libs : List BUserAssetLibrary) (i : Nat) :
    validCustomRefsFrom is_dir libs i =
      (libs.enumFrom i).filterMap fun p =>
        if is_dir p.2.dirpath then
          some ⟨.ASSET_LIBRARY_CUSTOM, (p.1 : Int)⟩
        else none := by
  induction libs generalizing i with
  | nil => rfl
  | cons l ls ih =>
    simp only [validCustomRefsFrom, List.enumFrom, List.filterMap_cons, ih]
    split <;> simp

/-- Claim C10: every list returned by all_valid_asset_library_refs begins
with the essentials reference with index -1, ends with the local reference
with index -1, and contains in between exactly the custom references of
those user libraries whose dirpath is an existing directory, each indexed
by its position in the preferences list, in the order of that list. -/
theorem c10_valid_library_refs (is_dir : String → Bool)
    (asset_libraries : List BUserAssetLibrary) :
    all_valid_asset_library_refs is_dir asset_libraries =
      ⟨.ASSET_LIBRARY_ESSENTIALS, -1⟩ ::
        ((asset_libraries.enum.filterMap fun p =>
            if is_dir p.2.dirpath then
              some ⟨.ASSET_LIBRARY_CUSTOM, (p.1 : Int)⟩
            else none) ++
          [⟨.ASSET_LIBRARY_LOCAL, -1⟩]) ∧
    (all_valid_asset_library_refs is_dir asset_libraries).head? =
      some ⟨.ASSET_LIBRARY_ESSENTIALS, -1⟩ ∧
    (all_valid_asset_library_refs is_dir asset_libraries).getLast? =
      some ⟨.ASSET_LIBRARY_LOCAL, -1⟩ := by
  refine ⟨?_, rfl, ?_⟩
  · rw [all_valid_asset_library_refs, validCustomRefsFrom_eq]
    rfl
  · rw [all_valid_asset_library_refs, ← List.cons_append, List.getLast?_concat]

/-- Setting the element at the index just after a prefix replaces the head
of the remainder. -/
theorem set_append_cons (xs : List Char) (y : Char) (zs : List Char)
    (c : Char) : (xs ++ y :: zs).set xs.length c = xs ++ c :: zs := by
  induction xs with
  | nil => rfl
  | cons a as ih =>
    show a :: ((as ++ y :: zs).set as.length c) = a :: (as ++ c :: zs)
    exact congrArg (a :: ·) ih

/-- takeWhile over satisfying elements followed by a failing element. -/
theorem takeWhile_prefix (p : Char → Bool) (xs : List Char) (y : Char)
    (zs : List Char) (hx : ∀ c ∈ xs, p c = true) (hy : p y = false) :
    (xs ++ y :: zs).takeWhile p = xs := by
  induction xs with
  | nil => simp [List.takeWhile_cons, hy]
  | cons a as ih =>
    have ha : p a = true := hx a (List.mem_cons_self a as)
    simp only [List.cons_append, List.takeWhile_cons, ha, if_true]
    exact congrArg (a :: ·) (ih fun c hc => hx c (List.mem_cons_of_mem a hc))

/-- Reading the C string at the offset right after a NUL-free component
boundary yields the component. -/
theorem cstrAt_append (pre mid post : List Char) (hmid : nulChar ∉ mid) :
    cstrAt (pre ++ (mid ++ nulChar :: post)) pre.length = mid := by
  unfold cstrAt
  rw [List.drop_left]
  refine takeWhile_prefix _ mid nulChar post (fun c hc => ?_) (by simp)
  simp only [bne_iff_ne, ne_eq]
  rintro rfl
  exact hmid hc

/-- Evaluation of the explode function on a resolved path with an empty
directory component. -/
theorem explode_some_empty_dir (e : ExplodedPath) (h0 : e.dir_size = 0)
    (wd wg wn : Bool) :
    AS_asset_full_path_explode_from_weak_ref (some e) wd wg wn =
      { path_buffer :=
          (bli_strncpy e.full_path FILE_MAX_LIBEXTRA).set e.group_size nulChar
        r_dir := if wd then some none else none
        r_group := if wg then some (some 0) else none
        r_name := if wn then some (some (e.group_size + 1)) else none } := by
  simp [AS_asset_full_path_explode_from_weak_ref, h0]

/-- Evaluation of the explode function on a resolved path with a nonempty
directory component. -/
theorem explode_some_dir (e : ExplodedPath) (h0 : e.dir_size ≠ 0)
    (wd wg wn : Bool) :
    AS_asset_full_path_explode_from_weak_ref (some e) wd wg wn =
      { path_buffer :=
          ((bli_strncpy e.full_path FILE_MAX_LIBEXTRA).set e.dir_size
            nulChar).set (e.dir_size + 1 + e.group_size) nulChar
        r_dir := if wd then some (some 0) else none
        r_group := if wg then some (some (e.dir_size + 1)) else none
        r_name := if wn then
            some (some (e.dir_size + 1 + e.group_size + 1))
          else none } := by
  simp [AS_asset_full_path_explode_from_weak_ref, h0]

/-- Claim C8: when the weak reference does not resolve, every requested out
pointer is set to null and the path buffer becomes the empty string; when
it resolves, the buffer holds the full path with NUL separators at the
component boundaries, r_group and r_name point into the buffer at the
group and name components, and r_dir is null exactly when the directory
component is empty, pointing at the directory component at the start of
the buffer otherwise. -/
theorem c8_explode (e : ExplodedPath) (dir group name : List Char)
    (sep1 sep2 : Char) (want_dir want_group want_name : Bool)
    (hdir : e.dir_size = dir.length) (hgroup : e.group_size = group.length)
    (hfp : e.full_path =
      (if dir = [] then [] else dir ++ [sep1]) ++ (group ++ sep2 :: name))
    (hlen : e.full_path.length ≤ 1089)
    (hgnul : nulChar ∉ group) (hnnul : nulChar ∉ name)
    (hdnul : nulChar ∉ dir) :
    (∀ wd wg wn, AS_asset_full_path_explode_from_weak_ref none wd wg wn =
      { path_buffer := [nulChar]
        r_dir := if wd then some none else none
        r_group := if wg then some none else none
        r_name := if wn then some none else none }) ∧
    ((AS_asset_full_path_explode_from_weak_ref (some e)
          want_dir want_group want_name).path_buffer =
        (if dir = [] then [] else dir ++ [nulChar]) ++
          (group ++ nulChar :: (name ++ [nulChar])) ∧
      (AS_asset_full_path_explode_from_weak_ref (some e)
          want_dir want_group want_name).r_group =
        (if want_group then
          some (some (if dir = [] then 0 else dir.length + 1))
        else none) ∧
      cstrAt (AS_asset_full_path_explode_from_weak_ref (some e)
          want_dir want_group want_name).path_buffer
        (if dir = [] then 0 else dir.length + 1) = group ∧
      (AS_asset_full_path_explode_from_weak_ref (some e)
          want_dir want_group want_name).r_name =
        (if want_name then
          some (some ((if dir = [] then 0 else dir.length + 1) +
            group.length + 1))
        else none) ∧
      cstrAt (AS_asset_full_path_explode_from_weak_ref (some e)
          want_dir want_group want_name).path_buffer
        ((if dir = [] then 0 else dir.length + 1) + group.length + 1) =
        name ∧
      (AS_asset_full_path_explode_from_weak_ref (some e)
          want_dir want_group want_name).r_dir =
        (if want_dir then
          some (if dir = [] then none else some 0)
        else none) ∧
      (dir ≠ [] → cstrAt (AS_asset_full_path_explode_from_weak_ref (some e)
          want_dir want_group want_name).path_buffer 0 = dir)) := by
  have hb0 : bli_strncpy e.full_path FILE_MAX_LIBEXTRA =
      e.full_path ++ [nulChar] := by
    simp only [bli_strncpy]
    rw [List.take_of_length_le (by simpa [FILE_MAX_LIBEXTRA] using hlen)]
  refine ⟨fun wd wg wn => rfl, ?_⟩
  by_cases hde : dir = []
  · subst hde
    have h0 : e.dir_size = 0 := by simpa using hdir
    have hout := explode_some_empty_dir e h0 want_dir want_group want_name
    have hfp' : e.full_path ++ [nulChar] =
        group ++ sep2 :: (name ++ [nulChar]) := by
      rw [hfp]
      simp
    have hpb :
        (bli_strncpy e.full_path FILE_MAX_LIBEXTRA).set e.group_size
          nulChar = group ++ nulChar :: (name ++ [nulChar]) := by
      rw [hb0, hfp', hgroup]
      exact set_append_cons group sep2 (name ++ [nulChar]) nulChar
    refine ⟨?_, ?_, ?_, ?_, ?_, ?_, ?_⟩
    · rw [hout]
      exact (by rw [hpb]; simp :
        (bli_strncpy e.full_path FILE_MAX_LIBEXTRA).set e.group_size
            nulChar =
          (if ([] : List Char) = [] then [] else [] ++ [nulChar]) ++
            (group ++ nulChar :: (name ++ [nulChar])))
    · rw [hout]
      exact (by simp :
        (if want_group = true then some (some 0) else none) =
          if want_group = true then
            some (some (if ([] : List Char) = [] then 0
              else List.length ([] : List Char) + 1))
          else none)
    · rw [hout]
      exact (by
        rw [hpb]
        simpa using cstrAt_append [] group (name ++ [nulChar]) hgnul :
        cstrAt ((bli_strncpy e.full_path FILE_MAX_LIBEXTRA).set
            e.group_size nulChar)
          (if ([] : List Char) = [] then 0
            else List.length ([] : List Char) + 1) = group)
    · rw [hout]
      exact (by simp [hgroup] :
        (if want_name = true then some (some (e.group_size + 1))
          else none) =
          if want_name = true then
            some (some ((if ([] : List Char) = [] then 0
              else List.length ([] : List Char) + 1) + group.length + 1))
          else none)
    · rw [hout]
      exact (by
        rw [hpb]
        simpa using cstrAt_append (group ++ [nulChar]) name [] hnnul :
        cstrAt ((bli_strncpy e.full_path FILE_MAX_LIBEXTRA).set
            e.group_size nulChar)
          ((if ([] : List Char) = [] then 0
            else List.length ([] : List Char) + 1) + group.length + 1) =
          name)
    · rw [hout]
      exact (by simp :
        (if want_dir = true then some none else none) =
          if want_dir = true then
            some (if ([] : List Char) = [] then none else some 0)
          else none)
    · intro h
      exact absurd rfl h
  · have h0 : e.dir_size ≠ 0 := by
      rw [hdir]
      simpa using hde
    have hout := explode_some_dir e h0 want_dir want_group want_name
    have hfp' : e.full_path ++ [nulChar] =
        dir ++ sep1 :: (group ++ sep2 :: (name ++ [nulChar])) := by
      rw [hfp, if_neg hde]
      simp
    have hstep1 :
        (bli_strncpy e.full_path FILE_MAX_LIBEXTRA).set e.dir_size nulChar =
          dir ++ nulChar :: (group ++ sep2 :: (name ++ [nulChar])) := by
      rw [hb0, hfp', hdir]
      exact set_append_cons dir sep1 _ nulChar
    have hshape :
        dir ++ nulChar :: (group ++ sep2 :: (name ++ [nulChar])) =
          (dir ++ nulChar :: group) ++ sep2 :: (name ++ [nulChar]) := by
      simp
    have hlenpre :
        dir.length + 1 + group.length = (dir ++ nulChar :: group).length := by
      simp only [List.length_append, List.length_cons]
      omega
    have hstep2 :
        (dir ++ nulChar :: (group ++ sep2 :: (name ++ [nulChar]))).set
            (e.dir_size + 1 + e.group_size) nulChar =
          (dir ++ [nulChar]) ++ (group ++ nulChar :: (name ++ [nulChar])) := by
      rw [hdir, hgroup, hshape, hlenpre, set_append_cons]
      simp
    have hpb :
        ((bli_strncpy e.full_path FILE_MAX_LIBEXTRA).set e.dir_size
            nulChar).set (e.dir_size + 1 + e.group_size) nulChar =
          (dir ++ [nulChar]) ++ (group ++ nulChar :: (name ++ [nulChar])) := by
      rw [hstep1]
      exact hstep2
    refine ⟨?_, ?_, ?_, ?_, ?_, ?_, ?_⟩
    · rw [hout]
      exact (by rw [hpb, if_neg hde] :
        ((bli_strncpy e.full_path FILE_MAX_LIBEXTRA).set e.dir_size
            nulChar).set (e.dir_size + 1 + e.group_size) nulChar =
          (if dir = [] then [] else dir ++ [nulChar]) ++
            (group ++ nulChar :: (name ++ [nulChar])))
    · rw [hout]
      exact (by rw [hdir, if_neg hde] :
        (if want_group = true then some (some (e.dir_size + 1))
          else none) =
          if want_group = true then
            some (some (if dir = [] then 0 else dir.length + 1))
          else none)
    · rw [hout]
      exact (by
        rw [hpb, if_neg hde,
          show dir.length + 1 = (dir ++ [nulChar]).length by simp]
        exact cstrAt_append (dir ++ [nulChar]) group (name ++ [nulChar])
          hgnul :
        cstrAt (((bli_strncpy e.full_path FILE_MAX_LIBEXTRA).set e.dir_size
            nulChar).set (e.dir_size + 1 + e.group_size) nulChar)
          (if dir = [] then 0 else dir.length + 1) = group)
    · rw [hout]
      exact (by rw [hdir, hgroup, if_neg hde] :
        (if want_name = true then
          some (some (e.dir_size + 1 + e.group_size + 1)) else none) =
          if want_name = true then
            some (some ((if dir = [] then 0 else dir.length + 1) +
              group.length + 1))
          else none)
    · rw [hout]
      exact (by
        rw [hpb, if_neg hde]
        have hoff2 : dir.length + 1 + group.length + 1 =
            ((dir ++ [nulChar]) ++ (group ++ [nulChar])).length := by
          simp only [List.length_append, List.length_cons, List.length_nil]
          omega
        have hsh2 : (dir ++ [nulChar]) ++
            (group ++ nulChar :: (name ++ [nulChar])) =
            ((dir ++ [nulChar]) ++ (group ++ [nulChar])) ++
              (name ++ nulChar :: []) := by
          simp
        rw [hoff2, hsh2]
        exact cstrAt_append ((dir ++ [nulChar]) ++ (group ++ [nulChar]))
          name [] hnnul :
        cstrAt (((bli_strncpy e.full_path FILE_MAX_LIBEXTRA).set e.dir_size
            nulChar).set (e.dir_size + 1 + e.group_size) nulChar)
          ((if dir = [] then 0 else dir.length + 1) + group.length + 1) =
          name)
    · rw [hout]
      exact (by rw [if_neg hde] :
        (if want_dir = true then some (some 0) else none) =
          if want_dir = true then
            some (if dir = [] then none else some 0)
          else none)
    · intro h
      rw [hout]
      exact (by
        rw [hpb]
        have hsh3 : (dir ++ [nulChar]) ++
            (group ++ nulChar :: (name ++ [nulChar])) =
            dir ++ nulChar :: (group ++ nulChar :: (name ++ [nulChar])) := by
          simp
        rw [hsh3]
        simpa using cstrAt_append [] dir
          (group ++ nulChar :: (name ++ [nulChar])) hdnul :
        cstrAt (((bli_strncpy e.full_path FILE_MAX_LIBEXTRA).set e.dir_size
            nulChar).set (e.dir_size + 1 + e.group_size) nulChar) 0 = dir)

/-- Witness for c8_explode at the concrete path d/g/n with one-character
components. -/
theorem c8_explode_witness :
    (∀ wd wg wn, AS_asset_full_path_explode_from_weak_ref none wd wg wn =
      { path_buffer := [nulChar]
        r_dir := if wd then some none else none
        r_group := if wg then some none else none
        r_name := if wn then some none else none }) ∧
    ((AS_asset_full_path_explode_from_weak_ref
          (some ⟨['d', '/', 'g', '/', 'n'], 1, 1, 1⟩)
          true true true).path_buffer =
        (if ['d'] = ([] : List Char) then [] else ['d'] ++ [nulChar]) ++
          (['g'] ++ nulChar :: (['n'] ++ [nulChar])) ∧
      (AS_asset_full_path_explode_from_weak_ref
          (some ⟨['d', '/', 'g', '/', 'n'], 1, 1, 1⟩)
          true true true).r_group =
        (if true then
          some (some (if ['d'] = ([] : List Char) then 0
            else List.length ['d'] + 1))
        else none) ∧
      cstrAt (AS_asset_full_path_explode_from_weak_ref
          (some ⟨['d', '/', 'g', '/', 'n'], 1, 1, 1⟩)
          true true true).path_buffer
        (if ['d'] = ([] : List Char) then 0 else List.length ['d'] + 1) =
        ['g'] ∧
      (AS_asset_full_path_explode_from_weak_ref
          (some ⟨['d', '/', 'g', '/', 'n'], 1, 1, 1⟩)
          true true true).r_name =
        (if true then
          some (some ((if ['d'] = ([] : List Char) then 0
            else List.length ['d'] + 1) + List.length ['g'] + 1))
        else none) ∧
      cstrAt (AS_asset_full_path_explode_from_weak_ref
          (some ⟨['d', '/', 'g', '/', 'n'], 1, 1, 1⟩)
          true true true).path_buffer
        ((if ['d'] = ([] : List Char) then 0 else List.length ['d'] + 1) +
          List.length ['g'] + 1) = ['n'] ∧
      (AS_asset_full_path_explode_from_weak_ref
          (some ⟨['d', '/', 'g', '/', 'n'], 1, 1, 1⟩)
          true true true).r_dir =
        (if true then
          some (if ['d'] = ([] : List Char) then none else some 0)
        else none) ∧
      (['d'] ≠ ([] : List Char) →
        cstrAt (AS_asset_full_path_explode_from_weak_ref
          (some ⟨['d', '/', 'g', '/', 'n'], 1, 1, 1⟩)
          true true true).path_buffer 0 = ['d'])) :=
  c8_explode ⟨['d', '/', 'g', '/', 'n'], 1, 1, 1⟩ ['d'] ['g'] ['n'] '/' '/'
    true true true rfl rfl (by decide) (by decide) (by decide) (by decide)
    (by decide)

end AssetSystem
